import Mathlib

/-!
Verification of the LTR390 UV-sensor driver (`src/i2c.c`).

The register codec (enums, encode/decode switches), the `msleep` helper and
the `main` session (part-id check, configure blocks, poll loop) are embedded
as executable Lean definitions, translated from the C source.  I/O against
the device is modelled by explicit state passing over a register map together
with a trace of transport/report events.
-/

namespace LTR390

/-! ## Device constants (`src/i2c.c`, lines 11-21) -/

def DEVICE : Nat := 0x53

def MAIN_CTRL_REG : Nat := 0x00

def RES_MEAS_RATE_REG : Nat := 0x04

def GAIN_REG : Nat := 0x05

def PART_ID_REG : Nat := 0x06

def MAIN_STATUS_REG : Nat := 0x07

def UV_DATA_REG : Nat := 0x10

def INT_CONF_REG : Nat := 0x19

/-! ## Enumerated settings (`src/i2c.c`, lines 23-58) -/

/-- `measurement_mode_t` (lines 23-27). -/
inductive measurement_mode_t where
  | ALS_MODE
  | UVS_MODE
deriving DecidableEq

/-- `gain_t` (lines 29-36): ordinals 0..4. -/
inductive gain_t where
  | GAIN_1
  | GAIN_3
  | GAIN_6
  | GAIN_9
  | GAIN_18
deriving DecidableEq

/-- `resolution_t` (lines 38-46): ordinals 0..5. -/
inductive resolution_t where
  | RES_20_BIT
  | RES_19_BIT
  | RES_18_BIT
  | RES_17_BIT
  | RES_16_BIT
  | RES_13_BIT
deriving DecidableEq

/-- `meas_rate_t` (lines 49-58): ordinals 0..6. -/
inductive meas_rate_t where
  | RATE_25
  | RATE_50
  | RATE_100
  | RATE_200
  | RATE_500
  | RATE_1000
  | RATE_2000
deriving DecidableEq

/-! ## Encoders.  In C the enum value itself is the byte written to the
device (`set_mode` line 121, `set_gain` line 221, `set_res_meas_rate`
line 152); these functions make the numeric enum values explicit. -/

def encode_mode : measurement_mode_t → Nat
  | .ALS_MODE => 0x02
  | .UVS_MODE => 0x0A

def encode_gain : gain_t → Nat
  | .GAIN_1 => 0
  | .GAIN_3 => 1
  | .GAIN_6 => 2
  | .GAIN_9 => 3
  | .GAIN_18 => 4

def encode_resolution : resolution_t → Nat
  | .RES_20_BIT => 0
  | .RES_19_BIT => 1
  | .RES_18_BIT => 2
  | .RES_17_BIT => 3
  | .RES_16_BIT => 4
  | .RES_13_BIT => 5

def encode_rate : meas_rate_t → Nat
  | .RATE_25 => 0
  | .RATE_50 => 1
  | .RATE_100 => 2
  | .RATE_200 => 3
  | .RATE_500 => 4
  | .RATE_1000 => 5
  | .RATE_2000 => 6

/-- `resolution << 4 | rate` (`set_res_meas_rate`, line 152). -/
def encode_res_rate (r : resolution_t) (t : meas_rate_t) : Nat :=
  encode_resolution r <<< 4 ||| encode_rate t

/-! ## Decoders.  These are the `switch` statements of the `print_*`
functions; an out-of-range byte takes the `default` branch, which reports
the raw value. -/

inductive ModeDecoded where
  | known (m : measurement_mode_t)
  | unknown (b : Nat)
deriving DecidableEq

inductive GainDecoded where
  | known (g : gain_t)
  | unknown (b : Nat)
deriving DecidableEq

inductive ResDecoded where
  | known (r : resolution_t)
  | unknown (b : Nat)
deriving DecidableEq

inductive RateDecoded where
  | known (t : meas_rate_t)
  | unknown (b : Nat)
deriving DecidableEq

/-- The `switch` of `print_mode` (lines 133-147). -/
def decode_mode (b : Nat) : ModeDecoded :=
  match b with
  | 0x02 => .known .ALS_MODE
  | 0x0A => .known .UVS_MODE
  | _ => .unknown b

/-- The `switch` of `print_gain` (lines 233-256). -/
def decode_gain (b : Nat) : GainDecoded :=
  match b with
  | 0 => .known .GAIN_1
  | 1 => .known .GAIN_3
  | 2 => .known .GAIN_6
  | 3 => .known .GAIN_9
  | 4 => .known .GAIN_18
  | _ => .unknown b

/-- The resolution `switch` of `print_res_meas_rate` (lines 167-187).
Note: the C switch has cases `RES_16_BIT` .. `RES_20_BIT` (ordinals 4..0)
but no case for `RES_13_BIT` (ordinal 5), which therefore falls through to
the `default` branch. -/
def decode_resolution (n : Nat) : ResDecoded :=
  match n with
  | 0 => .known .RES_20_BIT
  | 1 => .known .RES_19_BIT
  | 2 => .known .RES_18_BIT
  | 3 => .known .RES_17_BIT
  | 4 => .known .RES_16_BIT
  | _ => .unknown n

/-- The rate `switch` of `print_res_meas_rate` (lines 189-215). -/
def decode_rate (n : Nat) : RateDecoded :=
  match n with
  | 0 => .known .RATE_25
  | 1 => .known .RATE_50
  | 2 => .known .RATE_100
  | 3 => .known .RATE_200
  | 4 => .known .RATE_500
  | 5 => .known .RATE_1000
  | 6 => .known .RATE_2000
  | _ => .unknown n

/-- Nibble split of `print_res_meas_rate` (lines 167, 189):
`resolution = b >> 4`, `rate = b & 0x0f`. -/
def decode_res_rate (b : Nat) : ResDecoded × RateDecoded :=
  (decode_resolution (b >>> 4), decode_rate (b &&& 0x0f))

/-- `data2 << 16 | data1 << 8 | data0` (`read_raw_data`, line 271). -/
def assemble_raw24 (b0 b1 b2 : Nat) : Nat :=
  b2 <<< 16 ||| b1 <<< 8 ||| b0

/-! ## Transport model.

The device is a register map (address to stored byte); the external
USB/I2C transport is modelled by explicit state passing plus a trace of
events.  Read/write events record the bus address, register address and
byte moved; `report*` events stand for the `printf` calls that surface a
decoded value or measurement; `sleepMs` stands for the `msleep` call in
the poll loop; `disconnect` stands for `i2c_disconnect`. -/

def Dev : Type := Nat → Nat

inductive Event where
  | readReg (addr reg val : Nat)
  | writeReg (addr reg val : Nat)
  | reportPartId (val : Nat)
  | reportWrongPartId (val : Nat)
  | reportMode (m : ModeDecoded)
  | reportGain (g : GainDecoded)
  | reportRes (r : ResDecoded)
  | reportRate (t : RateDecoded)
  | reportStatus (v : Nat)
  | reportIntConf (v : Nat)
  | reportRaw (v : Nat)
  | sleepMs (ms : Nat)
  | disconnect
deriving DecidableEq

/-- Storing a byte: the C writes go through a `uint8_t` buffer, hence the
truncation to 8 bits. -/
def writeDev (d : Dev) (reg val : Nat) : Dev :=
  fun r => if r = reg then val % 256 else d r

/-- `i2c_read_register` on a one-byte buffer: yields the stored byte and
the corresponding bus transaction. -/
def i2c_read_register (d : Dev) (addr reg : Nat) : Nat × Event :=
  (d reg, .readReg addr reg (d reg))

/-- `i2c_write_register` on a one-byte buffer. -/
def i2c_write_register (d : Dev) (addr reg val : Nat) : Dev × Event :=
  (writeDev d reg val, .writeReg addr reg (val % 256))

/-! ## Register accessors (`src/i2c.c`, lines 87-131, 149-162, 218-231). -/

def get_int_conf_reg (d : Dev) : Nat × Event :=
  i2c_read_register d DEVICE INT_CONF_REG

def get_status (d : Dev) : Nat × Event :=
  i2c_read_register d DEVICE MAIN_STATUS_REG

def set_int_conf_reg (d : Dev) (val : Nat) : Dev × Event :=
  i2c_write_register d DEVICE INT_CONF_REG val

def get_part_id (d : Dev) : Nat × Event :=
  i2c_read_register d DEVICE PART_ID_REG

def set_mode (d : Dev) (mode : measurement_mode_t) : Dev × Event :=
  i2c_write_register d DEVICE MAIN_CTRL_REG (encode_mode mode)

def get_mode (d : Dev) : Nat × Event :=
  i2c_read_register d DEVICE MAIN_CTRL_REG

def set_res_meas_rate (d : Dev) (resolution : resolution_t) (rate : meas_rate_t) :
    Dev × Event :=
  i2c_write_register d DEVICE RES_MEAS_RATE_REG (encode_resolution resolution <<< 4 ||| encode_rate rate)

def get_res_meas_rate (d : Dev) : Nat × Event :=
  i2c_read_register d DEVICE RES_MEAS_RATE_REG

def set_gain (d : Dev) (gain : gain_t) : Dev × Event :=
  i2c_write_register d DEVICE GAIN_REG (encode_gain gain)

def get_gain (d : Dev) : Nat × Event :=
  i2c_read_register d DEVICE GAIN_REG

/-- `read_raw_data` (lines 258-273): three single-byte reads at offsets
0, 1, 2 of the data register, assembled as on line 271. -/
def read_raw_data (d : Dev) : Nat × List Event :=
  let r0 := i2c_read_register d DEVICE (UV_DATA_REG + 0)
  let r1 := i2c_read_register d DEVICE (UV_DATA_REG + 1)
  let r2 := i2c_read_register d DEVICE (UV_DATA_REG + 2)
  (assemble_raw24 r0.1 r1.1 r2.1, [r0.2, r1.2, r2.2])

/-! ## Reporting helpers: the decode-and-print functions, as the report
events they emit. -/

def print_mode (b : Nat) : Event :=
  .reportMode (decode_mode b)

def print_gain (b : Nat) : Event :=
  .reportGain (decode_gain b)

def print_res_meas_rate (b : Nat) : List Event :=
  [.reportRes (decode_resolution (b >>> 4)), .reportRate (decode_rate (b &&& 0x0f))]

/-- Modelled from the spec: `logExit` is declared in `error.h`, whose
implementation is not under `src/`.  Per spec sections 5 and 7(b), the
fatal identity-mismatch path reports the observed part-id value, releases
the transport exactly once, and terminates the process with a non-zero
exit status. -/
def logExit (observed : Nat) : List Event × Nat :=
  ([.reportWrongPartId observed, .disconnect], 1)

/-! ## The session (`main`, lines 275-348), from the part-id check onward.
Argument parsing and `i2c_connect` are external collaborators; the model
starts with a connected transport.  Plain `printf` lines that only echo a
raw value or a separator are presentation and are not modelled; the
decode-and-report calls are. -/

/-- One iteration of the poll loop (`main`, lines 337-344). -/
def pollIter (d : Dev) : Dev × List Event :=
  let st := get_status d
  let ic := get_int_conf_reg d
  let w := set_int_conf_reg d 0x30
  let raw := read_raw_data w.1
  (w.1,
    [st.2, .reportStatus st.1, ic.2, .reportIntConf ic.1, w.2] ++ raw.2 ++
      [.reportRaw raw.1, .sleepMs 100])

/-- `for (int i = 0; i < n; i++) { ... }` (`main`, line 337). -/
def pollLoop : Nat → Dev → Dev × List Event
  | 0, d => (d, [])
  | n + 1, d =>
    let s := pollIter d
    let rest := pollLoop n s.1
    (rest.1, s.2 ++ rest.2)

/-- `main` from the part-id check (line 294) to the final disconnect
(line 347): returns the event trace and the process exit status. -/
def session (d0 : Dev) : List Event × Nat :=
  let pid := get_part_id d0
  if pid.1 ≠ 0xB2 then
    let err := logExit pid.1
    (pid.2 :: err.1, err.2)
  else
    let m0 := get_mode d0
    let wM := set_mode d0 .UVS_MODE
    let m1 := get_mode wM.1
    let g0 := get_gain wM.1
    let wG := set_gain wM.1 .GAIN_18
    let g1 := get_gain wG.1
    let rr0 := get_res_meas_rate wG.1
    let wR := set_res_meas_rate wG.1 .RES_18_BIT .RATE_100
    let rr1 := get_res_meas_rate wR.1
    let pl := pollLoop 10 wR.1
    ([pid.2, .reportPartId pid.1,
      m0.2, print_mode m0.1, wM.2, m1.2, print_mode m1.1,
      g0.2, print_gain g0.1, wG.2, g1.2, print_gain g1.1,
      rr0.2] ++ print_res_meas_rate rr0.1 ++ [wR.2, rr1.2] ++
      print_res_meas_rate rr1.1 ++ pl.2 ++ [.disconnect], 0)

/-! ## Expected traces (spelled out flat, for comparison with `session`). -/

/-- The events of one poll iteration, written out flat: `d` is the register
map at entry to the loop and `ic` the value the interrupt-config read
returns in that iteration. -/
def pollIterTrace (d : Dev) (ic : Nat) : List Event :=
  [.readReg 0x53 0x07 (d 0x07), .reportStatus (d 0x07),
   .readReg 0x53 0x19 ic, .reportIntConf ic,
   .writeReg 0x53 0x19 0x30,
   .readReg 0x53 0x10 (d 0x10), .readReg 0x53 0x11 (d 0x11), .readReg 0x53 0x12 (d 0x12),
   .reportRaw (assemble_raw24 (d 0x10) (d 0x11) (d 0x12)), .sleepMs 100]

/-- The full expected trace of a session whose part-id check succeeds,
written out flat: part-id block, three configure blocks (each read /
report / write / read back / report), ten poll iterations (the first reads
the pre-existing interrupt-config byte, the later nine read back the 0x30
written before), and a final disconnect. -/
def sessionOkTrace (d : Dev) : List Event :=
  [.readReg 0x53 0x06 0xB2, .reportPartId 0xB2,
   .readReg 0x53 0x00 (d 0x00), .reportMode (decode_mode (d 0x00)),
   .writeReg 0x53 0x00 0x0A, .readReg 0x53 0x00 0x0A, .reportMode (.known .UVS_MODE),
   .readReg 0x53 0x05 (d 0x05), .reportGain (decode_gain (d 0x05)),
   .writeReg 0x53 0x05 0x04, .readReg 0x53 0x05 0x04, .reportGain (.known .GAIN_18),
   .readReg 0x53 0x04 (d 0x04), .reportRes (decode_resolution (d 0x04 >>> 4)),
   .reportRate (decode_rate (d 0x04 &&& 0x0f)),
   .writeReg 0x53 0x04 0x22, .readReg 0x53 0x04 0x22,
   .reportRes (.known .RES_18_BIT), .reportRate (.known .RATE_100)]
  ++ pollIterTrace d (d 0x19)
  ++ (List.replicate 9 (pollIterTrace d 0x30)).flatten
  ++ [.disconnect]

theorem session_eq_ok (d : Dev) (h : d PART_ID_REG = 0xB2) :
    session d = (sessionOkTrace d, 0) := by
  have h6 : d 6 = 0xB2 := h
  simp [session, sessionOkTrace, pollIterTrace, get_part_id, get_mode, get_gain,
    get_res_meas_rate, get_status, get_int_conf_reg, set_mode, set_gain, set_res_meas_rate,
    set_int_conf_reg, read_raw_data, i2c_read_register, i2c_write_register, writeDev,
    print_mode, print_gain, print_res_meas_rate, pollLoop, pollIter, logExit,
    DEVICE, MAIN_CTRL_REG, RES_MEAS_RATE_REG, GAIN_REG, PART_ID_REG, MAIN_STATUS_REG,
    UV_DATA_REG, INT_CONF_REG, encode_mode, encode_gain, encode_resolution, encode_rate,
    assemble_raw24, h6]
  decide

theorem session_eq_bad (d : Dev) (h : ¬ d PART_ID_REG = 0xB2) :
    session d =
      ([.readReg DEVICE PART_ID_REG (d PART_ID_REG),
        .reportWrongPartId (d PART_ID_REG), .disconnect], 1) := by
  have h6 : ¬ d 6 = 0xB2 := h
  simp [session, get_part_id, i2c_read_register, logExit, PART_ID_REG, DEVICE, h6]

/-! ## `msleep` (`src/i2c.c`, lines 60-85).

`nanosleep` is a kernel service; its behaviour is modelled by a finite
script of outcomes, one per call.  A call either completes the requested
sleep, is interrupted by a signal after some milliseconds (returning -1
with `errno = EINTR` and the remaining time stored back into `ts`, since
the C passes the same struct as request and remainder), or fails for
another reason.  An exhausted script means no further interruptions. -/

inductive SleepOutcome where
  | complete
  | intr (elapsed : Nat)
  | fail
deriving DecidableEq

/-- The `do { res = nanosleep(&ts, &ts); } while (res && errno == EINTR);`
loop (lines 77-82): returns whether the loop exited with `res == 0`,
together with the total milliseconds actually slept. -/
def nanosleepLoop : List SleepOutcome → Nat → Bool × Nat
  | [], req => (true, req)
  | .complete :: _, req => (true, req)
  | .fail :: _, _ => (false, 0)
  | .intr e :: rest, req =>
    if e < req then
      let r := nanosleepLoop rest (req - e)
      (r.1, e + r.2)
    else (true, req)

structure MsleepResult where
  ok : Bool
  elapsed : Nat
  einval : Bool
deriving DecidableEq

/-- `msleep` (lines 62-85): a negative request sets `errno = EINVAL` and
returns `false` without sleeping; otherwise the `nanosleep` loop runs. -/
def msleep (msec : Int) (script : List SleepOutcome) : MsleepResult :=
  if msec < 0 then ⟨false, 0, true⟩
  else
    let r := nanosleepLoop script msec.toNat
    ⟨r.1, r.2, false⟩

theorem nanosleepLoop_ok_elapsed (script : List SleepOutcome) :
    ∀ req, (nanosleepLoop script req).1 = true → (nanosleepLoop script req).2 = req := by
  induction script with
  | nil => intro req _; rfl
  | cons o rest ih =>
    intro req hok
    cases o with
    | complete => rfl
    | fail => simp [nanosleepLoop] at hok
    | intr e =>
      by_cases he : e < req
      · have h1 : (nanosleepLoop rest (req - e)).1 = true := by
          simpa [nanosleepLoop, he] using hok
        have h2 := ih (req - e) h1
        simp [nanosleepLoop, he, h2]
        omega
      · simp [nanosleepLoop, he]

/-! ## Witness register maps. -/

/-- A register map whose part-id byte is correct and all other registers
read zero. -/
def dOk : Dev := fun r => if r = PART_ID_REG then 0xB2 else 0

/-- A register map reading zero everywhere (wrong part id). -/
def dBad : Dev := fun _ => 0

def isDisconnect : Event → Bool
  | .disconnect => true
  | _ => false

/-! ## Claims -/

/-- C1: the round-trip law `decode(encode(x)) = x` is claimed for every
valid Mode, Gain, Resolution and Rate, and for the combined pair.  It
fails at `RES_13_BIT` (ordinal 5): the resolution `switch` of
`print_res_meas_rate` has no case for it, so the encoded nibble 5 decodes
to the `default` (unknown) branch instead of back to `RES_13_BIT`. -/
theorem claim_C1 :
    decode_res_rate (encode_res_rate .RES_13_BIT .RATE_25) =
        (.unknown 5, .known .RATE_25)
      ∧ decode_resolution (encode_resolution .RES_13_BIT) ≠ .known .RES_13_BIT := by
  decide

/-- C2: the combined resolution/rate byte is always produced as
`(resolution_ordinal << 4) | rate_ordinal`, and every write the session
makes to that register carries both nibbles of the supplied pair (here the
single configure write of `RES_18_BIT`/`RATE_100`). -/
theorem claim_C2 :
    (∀ (d : Dev) (r : resolution_t) (t : meas_rate_t),
        (set_res_meas_rate d r t).2 =
          Event.writeReg DEVICE RES_MEAS_RATE_REG
            (encode_resolution r <<< 4 ||| encode_rate t))
    ∧ (∀ (d : Dev) (a v : Nat),
        Event.writeReg a RES_MEAS_RATE_REG v ∈ (session d).1 →
          v = encode_res_rate .RES_18_BIT .RATE_100) := by
  constructor
  · intro d r t
    cases r <;> cases t <;> rfl
  · intro d a v hmem
    by_cases h : d PART_ID_REG = 0xB2
    · rw [session_eq_ok d h] at hmem
      simp [sessionOkTrace, pollIterTrace, RES_MEAS_RATE_REG] at hmem
      rw [hmem.2]
      decide
    · rw [session_eq_bad d h] at hmem
      simp [RES_MEAS_RATE_REG] at hmem

theorem claim_C2_witness :
    Event.writeReg 0x53 RES_MEAS_RATE_REG 34 ∈ (session dOk).1
      ∧ (34 : Nat) = encode_res_rate .RES_18_BIT .RATE_100 :=
  ⟨by decide, claim_C2.2 dOk 0x53 34 (by decide)⟩

/-- C3: the raw measurement is assembled from three single-byte reads at
data-register offsets 0, 1, 2 as `byte2<<16 | byte1<<8 | byte0`; on bytes
(0x01, 0x02, 0x03) this yields 0x030201, and for any byte triple the
result is below 2^24. -/
theorem claim_C3 :
    ∀ b0 b1 b2 : Nat, b0 < 256 → b1 < 256 → b2 < 256 →
      assemble_raw24 b0 b1 b2 < 2 ^ 24
      ∧ assemble_raw24 0x01 0x02 0x03 = 0x030201
      ∧ (∀ d : Dev,
          (read_raw_data d).2 =
            [Event.readReg DEVICE (UV_DATA_REG + 0) (d (UV_DATA_REG + 0)),
             Event.readReg DEVICE (UV_DATA_REG + 1) (d (UV_DATA_REG + 1)),
             Event.readReg DEVICE (UV_DATA_REG + 2) (d (UV_DATA_REG + 2))]
          ∧ (read_raw_data d).1 =
              assemble_raw24 (d (UV_DATA_REG + 0)) (d (UV_DATA_REG + 1))
                (d (UV_DATA_REG + 2))) := by
  intro b0 b1 b2 h0 h1 h2
  refine ⟨?_, by decide, fun d => ⟨rfl, rfl⟩⟩
  unfold assemble_raw24
  have hb2 : b2 <<< 16 < 2 ^ 24 := by
    have h := Nat.shiftLeft_lt (n := 8) (m := 16) h2
    simpa using h
  have hb1 : b1 <<< 8 < 2 ^ 24 := by
    have h := Nat.shiftLeft_lt (n := 8) (m := 8) h1
    have h16 : (2 : Nat) ^ 16 ≤ 2 ^ 24 := by norm_num
    exact lt_of_lt_of_le (by simpa using h) h16
  have hb0 : b0 < 2 ^ 24 := lt_of_lt_of_le h0 (by norm_num)
  have hA : b2 <<< 16 ||| b1 <<< 8 < 2 ^ 24 := Nat.bitwise_lt hb2 hb1
  exact Nat.bitwise_lt hA hb0

theorem claim_C3_witness :
    assemble_raw24 1 2 3 < 2 ^ 24 ∧ assemble_raw24 0x01 0x02 0x03 = 0x030201 :=
  ⟨(claim_C3 1 2 3 (by decide) (by decide) (by decide)).1,
   (claim_C3 1 2 3 (by decide) (by decide) (by decide)).2.1⟩

/-- C4: any byte outside the known value/ordinal set of a field decodes to
an explicit unknown result carrying the raw field value, and the two
nibbles of the combined byte decode independently, so an unknown
resolution nibble coexists with a known rate nibble and vice versa. -/
theorem claim_C4 :
    (∀ b : Fin 256, b.val ≠ 2 → b.val ≠ 10 → decode_mode b.val = .unknown b.val)
    ∧ (∀ b : Fin 256, 4 < b.val → decode_gain b.val = .unknown b.val)
    ∧ (∀ n : Fin 16, 4 < n.val → decode_resolution n.val = .unknown n.val)
    ∧ (∀ n : Fin 16, 6 < n.val → decode_rate n.val = .unknown n.val)
    ∧ (∀ hi lo : Fin 16,
        decode_res_rate (hi.val <<< 4 ||| lo.val) =
          (decode_resolution hi.val, decode_rate lo.val))
    ∧ decode_res_rate 0x52 = (.unknown 5, .known .RATE_100)
    ∧ decode_res_rate 0x2F = (.known .RES_18_BIT, .unknown 15) := by
  set_option maxRecDepth 8192 in decide

theorem claim_C4_witness :
    decode_mode 7 = ModeDecoded.unknown 7
      ∧ decode_gain 9 = GainDecoded.unknown 9
      ∧ decode_resolution 5 = ResDecoded.unknown 5
      ∧ decode_rate 15 = RateDecoded.unknown 15 :=
  ⟨claim_C4.1 ⟨7, by decide⟩ (by decide) (by decide),
   claim_C4.2.1 ⟨9, by decide⟩ (by decide),
   claim_C4.2.2.1 ⟨5, by decide⟩ (by decide),
   claim_C4.2.2.2.1 ⟨15, by decide⟩ (by decide)⟩

/-- C5: when the part-id byte differs from 0xB2, the session takes the
fatal path: the observed value is reported, the transport is released
exactly once, and the process exits non-zero; the part-id register is read
only once (no retry).  `logExit` itself is modelled from the spec, since
`error.h` is not under `src/`. -/
theorem claim_C5 :
    ∀ d : Dev, d PART_ID_REG ≠ 0xB2 →
      session d =
        ([.readReg DEVICE PART_ID_REG (d PART_ID_REG),
          .reportWrongPartId (d PART_ID_REG), .disconnect], 1)
      ∧ (session d).2 ≠ 0
      ∧ ((session d).1.countP isDisconnect) = 1 := by
  intro d h
  have he := session_eq_bad d h
  refine ⟨he, ?_, ?_⟩ <;> rw [he]
  · simp
  · rfl

theorem claim_C5_witness :
    dBad PART_ID_REG ≠ 0xB2
      ∧ (session dBad =
          ([.readReg DEVICE PART_ID_REG (dBad PART_ID_REG),
            .reportWrongPartId (dBad PART_ID_REG), .disconnect], 1)
        ∧ (session dBad).2 ≠ 0
        ∧ ((session dBad).1.countP isDisconnect) = 1) :=
  ⟨by decide, claim_C5 dBad (by decide)⟩

/-- C6: with a matching part id, the session trace is exactly the
configure blocks followed by ten poll iterations — each reading status,
reading the interrupt-config register, writing 0x30 to it, reading the
three raw-data bytes, reporting the assembled measurement, and sleeping
100 ms — followed by an unconditional disconnect. -/
theorem claim_C6 :
    ∀ d : Dev, d PART_ID_REG = 0xB2 → (session d).1 = sessionOkTrace d := by
  intro d h
  rw [session_eq_ok d h]

theorem claim_C6_witness :
    dOk PART_ID_REG = 0xB2 ∧ (session dOk).1 = sessionOkTrace dOk :=
  ⟨rfl, claim_C6 dOk rfl⟩

/-- C7: if the sleep is interrupted by a signal, it is resumed for the
remaining duration; `msleep` reports success only after the full requested
number of milliseconds has elapsed across all resumptions. -/
theorem claim_C7 :
    ∀ (msec : Int) (script : List SleepOutcome),
      (msleep msec script).ok = true → (msleep msec script).elapsed = msec.toNat := by
  intro msec script hok
  by_cases hneg : msec < 0
  · simp [msleep, hneg] at hok
  · simp only [msleep, hneg, if_false] at hok ⊢
    exact nanosleepLoop_ok_elapsed script msec.toNat hok

theorem claim_C7_witness :
    (msleep 100 [.intr 30, .intr 50]).ok = true
      ∧ (msleep 100 [.intr 30, .intr 50]).elapsed = (100 : Int).toNat :=
  ⟨by decide, claim_C7 100 [.intr 30, .intr 50] (by decide)⟩

/-- C8: the bit-exact register map: bus address 0x53; mode bytes 0x02 and
0x0A at the main-control register 0x00; gain ordinals 0..4 at 0x05;
resolution/rate at 0x04; part id at 0x06 with expected constant 0xB2
(process succeeds exactly when it matches); status at 0x07; data bytes at
0x10..0x12 with the byte at 0x10 in the least-significant position;
interrupt config at 0x19. -/
theorem claim_C8 :
    DEVICE = 0x53
    ∧ encode_mode .ALS_MODE = 0x02 ∧ encode_mode .UVS_MODE = 0x0A
    ∧ MAIN_CTRL_REG = 0x00
    ∧ (∀ (d : Dev) (m : measurement_mode_t),
        (set_mode d m).2 = Event.writeReg DEVICE MAIN_CTRL_REG (encode_mode m))
    ∧ encode_gain .GAIN_1 = 0 ∧ encode_gain .GAIN_3 = 1 ∧ encode_gain .GAIN_6 = 2
    ∧ encode_gain .GAIN_9 = 3 ∧ encode_gain .GAIN_18 = 4
    ∧ GAIN_REG = 0x05
    ∧ (∀ (d : Dev) (g : gain_t),
        (set_gain d g).2 = Event.writeReg DEVICE GAIN_REG (encode_gain g))
    ∧ RES_MEAS_RATE_REG = 0x04
    ∧ PART_ID_REG = 0x06
    ∧ (∀ d : Dev, (get_part_id d).2 = Event.readReg DEVICE PART_ID_REG (d PART_ID_REG))
    ∧ (∀ d : Dev, d PART_ID_REG = 0xB2 ↔ (session d).2 = 0)
    ∧ MAIN_STATUS_REG = 0x07
    ∧ (∀ d : Dev, (get_status d).2 = Event.readReg DEVICE MAIN_STATUS_REG (d MAIN_STATUS_REG))
    ∧ UV_DATA_REG = 0x10
    ∧ assemble_raw24 1 0 0 = 1 ∧ assemble_raw24 0 1 0 = 0x100
    ∧ assemble_raw24 0 0 1 = 0x10000
    ∧ INT_CONF_REG = 0x19
    ∧ (∀ (d : Dev) (v : Nat),
        (set_int_conf_reg d v).2 = Event.writeReg DEVICE INT_CONF_REG (v % 256)) :=
  ⟨rfl, rfl, rfl, rfl,
   fun _ m => by cases m <;> rfl,
   rfl, rfl, rfl, rfl, rfl, rfl,
   fun _ g => by cases g <;> rfl,
   rfl, rfl,
   fun _ => rfl,
   fun d => ⟨fun h => by rw [session_eq_ok d h],
             fun h => by
               by_contra hne
               rw [session_eq_bad d hne] at h
               simp at h⟩,
   rfl,
   fun _ => rfl,
   rfl, by decide, by decide, by decide, rfl,
   fun _ _ => rfl⟩

/-- C9: each configure step reads the current raw value, reports its
decoding, writes the encoded target, reads back and reports the decoding
of the read-back; in particular the mode read-back after configuring
`UVS_MODE` is the written byte 0x0A, whose decoding is `UVS_MODE`, for
every initial register map. -/
theorem claim_C9 :
    ∀ d : Dev, d PART_ID_REG = 0xB2 →
      ((session d).1.drop 2).take 17 =
        [Event.readReg DEVICE MAIN_CTRL_REG (d MAIN_CTRL_REG),
         Event.reportMode (decode_mode (d MAIN_CTRL_REG)),
         Event.writeReg DEVICE MAIN_CTRL_REG (encode_mode .UVS_MODE),
         Event.readReg DEVICE MAIN_CTRL_REG (encode_mode .UVS_MODE),
         Event.reportMode (.known .UVS_MODE),
         Event.readReg DEVICE GAIN_REG (d GAIN_REG),
         Event.reportGain (decode_gain (d GAIN_REG)),
         Event.writeReg DEVICE GAIN_REG (encode_gain .GAIN_18),
         Event.readReg DEVICE GAIN_REG (encode_gain .GAIN_18),
         Event.reportGain (.known .GAIN_18),
         Event.readReg DEVICE RES_MEAS_RATE_REG (d RES_MEAS_RATE_REG),
         Event.reportRes (decode_resolution (d RES_MEAS_RATE_REG >>> 4)),
         Event.reportRate (decode_rate (d RES_MEAS_RATE_REG &&& 0x0f)),
         Event.writeReg DEVICE RES_MEAS_RATE_REG (encode_res_rate .RES_18_BIT .RATE_100),
         Event.readReg DEVICE RES_MEAS_RATE_REG (encode_res_rate .RES_18_BIT .RATE_100),
         Event.reportRes (.known .RES_18_BIT),
         Event.reportRate (.known .RATE_100)]
      ∧ decode_mode (encode_mode .UVS_MODE) = .known .UVS_MODE := by
  intro d h
  rw [session_eq_ok d h]
  exact ⟨rfl, rfl⟩

theorem claim_C9_witness :
    dOk PART_ID_REG = 0xB2
      ∧ decode_mode (encode_mode .UVS_MODE) = .known .UVS_MODE :=
  ⟨rfl, (claim_C9 dOk rfl).2⟩

/-- C10: a negative millisecond argument makes `msleep` sleep nothing, set
`errno` to `EINVAL`, and return `false`. -/
theorem claim_C10 :
    ∀ (msec : Int) (script : List SleepOutcome), msec < 0 →
      msleep msec script = ⟨false, 0, true⟩ := by
  intro msec script h
  simp [msleep, h]

theorem claim_C10_witness :
    (-1 : Int) < 0 ∧ msleep (-1) [] = ⟨false, 0, true⟩ :=
  ⟨by decide, claim_C10 (-1) [] (by decide)⟩

end LTR390
